import Mathlib

/-!
Verification development for the Talk2DB repository.

The repository ships a React frontend (`frontend/src`); its Flask backend
(query classifier, RBAC enforcer, statistical profiling engine, execution
adapter) is described by the specification but its code is not part of the
source tree.  Backend components are therefore modelled from the
specification (each such definition says so in its doc comment); frontend
behaviour (Chat.jsx, AuthContext.jsx, apiService.js, MessageBubble.jsx) is
embedded directly from the JavaScript source.
-/

namespace Talk2DB

/-! ## Query Statement Classifier and RBAC Policy Enforcer (spec §4.4, §4.5) -/

/-- Coarse category of a query statement (spec glossary: StatementKind). -/
inductive StatementKind where
  | read
  | schemaDefinition
  | dataMutation
  | dataDeletion
  | unsafeUnknown
  deriving DecidableEq, Repr

/-- Caller roles (spec §3 RolePolicy). -/
inductive Role where
  | admin
  | editor
  | viewer
  deriving DecidableEq, Repr

/-- Modelled from the spec: the backend query-statement classifier is not in
the source tree.  Leading keyword of a statement: drop leading whitespace,
take the maximal run of alphabetic characters, upper-cased
(classification is case-insensitive and ignores leading whitespace). -/
def leadingKeyword (q : String) : List Char :=
  ((q.data.dropWhile Char.isWhitespace).takeWhile Char.isAlpha).map Char.toUpper

/-- Modelled from the spec: a statement-separator character signals the risk
of multiple chained statements. -/
def hasSeparator (q : String) : Bool :=
  q.data.contains ';'

/-- Modelled from the spec: fixed lookup from a known leading verb to its
StatementKind; verbs not in the lookup map to unsafe-unknown. -/
def keywordKind (kw : List Char) : StatementKind :=
  if kw = "SELECT".data ∨ kw = "SHOW".data ∨ kw = "DESCRIBE".data ∨ kw = "EXPLAIN".data then
    .read
  else if kw = "CREATE".data ∨ kw = "ALTER".data ∨ kw = "DROP".data ∨ kw = "TRUNCATE".data then
    .schemaDefinition
  else if kw = "INSERT".data ∨ kw = "UPDATE".data then
    .dataMutation
  else if kw = "DELETE".data then
    .dataDeletion
  else
    .unsafeUnknown

/-- Modelled from the spec: the Query Statement Classifier (§4.4) is backend
code absent from the source tree.  Statements containing a
statement-separator character are unsafe-unknown regardless of their first
keyword; otherwise the leading verb is looked up. -/
def classify (q : String) : StatementKind :=
  if hasSeparator q then .unsafeUnknown
  else keywordKind (leadingKeyword q)

/-- Modelled from the spec: the fixed RolePolicy (§3, §4.5).
admin → {read, schema-definition, data-mutation, data-deletion};
editor → {read, data-mutation}; viewer → {read};
unsafe-unknown is in no role's permitted set. -/
def permits : Role → StatementKind → Bool
  | .admin, .read => true
  | .admin, .schemaDefinition => true
  | .admin, .dataMutation => true
  | .admin, .dataDeletion => true
  | .editor, .read => true
  | .editor, .dataMutation => true
  | .viewer, .read => true
  | _, _ => false

/-- Reasons a query is rejected (spec §7 error kinds relevant to gating). -/
inductive RejectReason where
  | unsafeQuery
  | permissionDenied
  deriving DecidableEq, Repr

/-- The enforcement decision: pass the classified query on, or reject. -/
inductive Decision where
  | accept (kind : StatementKind)
  | reject (reason : RejectReason)
  deriving DecidableEq, Repr

/-- Modelled from the spec: the RBAC Policy Enforcer (§4.5) is backend code
absent from the source tree.  unsafe-unknown is always rejected; otherwise
the classified kind must be in the caller role's permitted set. -/
def enforce (r : Role) (k : StatementKind) : Decision :=
  if k = .unsafeUnknown then .reject .unsafeQuery
  else if permits r k then .accept k
  else .reject .permissionDenied

/-- Modelled from the spec: the exposed `validateAndClassify(query, role)`
entry point (§6): classify, then enforce. -/
def validateAndClassify (q : String) (r : Role) : Decision :=
  enforce r (classify q)

/-- Modelled from the spec: only an accepted query reaches the Query
Execution Adapter; a rejected query yields no execution at all. -/
def passToAdapter (q : String) (r : Role) : Option (String × StatementKind) :=
  match validateAndClassify q r with
  | .accept k => some (q, k)
  | .reject _ => none

/-! ## Client-side session state (frontend/src/context/AuthContext.jsx) -/

/-- The payload stored by `login(userData)` in AuthContext.jsx:
token, username, role and a permissions list (stringified into
localStorage by the source). -/
structure UserData where
  token : String
  username : String
  role : String
  permissions : List String
  deriving DecidableEq, Repr

/-- A value held in the browser localStorage: either a plain string or the
serialized permissions list (`JSON.stringify(userData.permissions)`). -/
inductive StoreVal where
  | str (s : String)
  | jsonList (l : List String)
  deriving DecidableEq, Repr

/-- The client-side ambient session state of AuthContext.jsx: the React
`user` state plus the browser localStorage key-value store. -/
structure Client where
  user : Option UserData
  store : String → Option StoreVal

/-- `localStorage.setItem`. -/
def setKey (m : String → Option StoreVal) (k : String) (v : StoreVal) :
    String → Option StoreVal :=
  fun k' => if k' = k then some v else m k'

/-- `localStorage.removeItem`. -/
def removeKey (m : String → Option StoreVal) (k : String) :
    String → Option StoreVal :=
  fun k' => if k' = k then none else m k'

/-- `login(userData)` from AuthContext.jsx lines 29-35: store token,
username, role and the stringified permissions in localStorage, then set
the `user` state to the given payload. -/
def login (s : Client) (u : UserData) : Client :=
  { user := some u
    store :=
      setKey
        (setKey
          (setKey
            (setKey s.store "token" (.str u.token))
            "username" (.str u.username))
          "role" (.str u.role))
        "permissions" (.jsonList u.permissions) }

/-- `logout()` from AuthContext.jsx lines 37-43: remove the four session
keys from localStorage and clear the `user` state. -/
def logout (s : Client) : Client :=
  { user := none
    store :=
      removeKey
        (removeKey
          (removeKey
            (removeKey s.store "token")
            "username")
          "role")
        "permissions" }

/-! ## Process model for the RolePolicy invariant (claim C3) -/

/-- An operation reachable after startup: a client login, a client logout,
or a query submission through the enforcer. -/
inductive Op where
  | clientLogin (u : UserData)
  | clientLogout
  | submitQuery (r : Role) (q : String)

/-- The process state: the RolePolicy configuration (modelled from the
spec, since the backend is absent from the source tree) together with the
client-side session state from AuthContext.jsx. -/
structure ProcState where
  rolePolicy : Role → StatementKind → Bool
  session : Client

/-- Modelled from the spec: at process start the RolePolicy is loaded as
the fixed default mapping `permits`; the session starts logged out with an
empty store. -/
def startup : ProcState :=
  { rolePolicy := permits
    session := { user := none, store := fun _ => none } }

/-- One step of the process: logins and logouts update only the session
state (AuthContext.jsx); a query submission is decided by the enforcer and
changes no state at all. -/
def stepOp (s : ProcState) : Op → ProcState
  | .clientLogin u => { s with session := login s.session u }
  | .clientLogout => { s with session := logout s.session }
  | .submitQuery _ _ => s

/-- Run a sequence of operations from a state. -/
def runOps (s : ProcState) (ops : List Op) : ProcState :=
  ops.foldl stepOp s

/-! ## Theorems for claims C1, C2, C3 -/

/-- Claim C1: for every caller role (including admin) and every query whose
classification is unsafe-unknown — in particular any query containing a
statement-separator character — `validateAndClassify` rejects (with the
UnsafeQuery reason), and no such query is passed to the Query Execution
Adapter. -/
theorem unsafeUnknown_always_rejected (r : Role) (q : String)
    (h : hasSeparator q = true ∨ classify q = .unsafeUnknown) :
    validateAndClassify q r = .reject .unsafeQuery ∧ passToAdapter q r = none := by
  have hc : classify q = .unsafeUnknown := by
    rcases h with h | h
    · simp [classify, h]
    · exact h
  refine ⟨?_, ?_⟩
  · simp [validateAndClassify, hc, enforce]
  · simp [passToAdapter, validateAndClassify, hc, enforce]

/-- Witness for C1 at the spec's own example: role admin, query
containing a statement separator. -/
theorem unsafeUnknown_always_rejected_witness :
    validateAndClassify "SELECT * FROM orders; DROP TABLE orders" Role.admin
        = .reject .unsafeQuery ∧
      passToAdapter "SELECT * FROM orders; DROP TABLE orders" Role.admin = none :=
  unsafeUnknown_always_rejected Role.admin
    "SELECT * FROM orders; DROP TABLE orders" (Or.inl (by decide))

/-- Claim C2: the enforcer accepts a classified query exactly when its
StatementKind is in the caller role's fixed permitted set; the permitted
sets are admin → {read, schema-definition, data-mutation, data-deletion},
editor → {read, data-mutation}, viewer → {read}; and the spec's example
(viewer, "DELETE FROM orders", classified data-deletion) is rejected with
PermissionDenied. -/
theorem rbac_accepts_iff_permitted :
    (∀ (r : Role) (q : String),
        validateAndClassify q r = .accept (classify q) ↔ permits r (classify q) = true) ∧
      (∀ k, permits .admin k = (k ≠ .unsafeUnknown : Bool)) ∧
      (∀ k, permits .editor k = (k = .read ∨ k = .dataMutation : Bool)) ∧
      (∀ k, permits .viewer k = (k = .read : Bool)) ∧
      classify "DELETE FROM orders" = .dataDeletion ∧
      validateAndClassify "DELETE FROM orders" .viewer = .reject .permissionDenied := by
  refine ⟨?_, ?_, ?_, ?_, by decide, by decide⟩
  · intro r q
    constructor
    · intro h
      by_cases hu : classify q = .unsafeUnknown
      · simp [validateAndClassify, enforce, hu] at h
      · by_cases hp : permits r (classify q) = true
        · exact hp
        · simp [validateAndClassify, enforce, hu, hp] at h
    · intro hp
      have hu : classify q ≠ .unsafeUnknown := by
        intro hu
        rw [hu] at hp
        cases r <;> simp [permits] at hp
      simp [validateAndClassify, enforce, hu, hp]
  · intro k; cases k <;> decide
  · intro k; cases k <;> decide
  · intro k; cases k <;> decide

/-- Claim C3: the RolePolicy mapping is loaded once at startup and no
operation reachable after startup (client login/logout, which touch only
the ambient session state of AuthContext.jsx, or a query submission)
changes any role's permitted set: after every operation sequence the
policy is still the startup policy `permits`, so no dynamic privilege
escalation path exists. -/
theorem rolePolicy_never_mutated (ops : List Op) :
    (runOps startup ops).rolePolicy = permits := by
  suffices h : ∀ (s : ProcState) (l : List Op), (runOps s l).rolePolicy = s.rolePolicy by
    exact h startup ops
  intro s l
  induction l generalizing s with
  | nil => rfl
  | cons o t ih =>
      have hstep : (stepOp s o).rolePolicy = s.rolePolicy := by
        cases o <;> rfl
      calc (runOps s (o :: t)).rolePolicy
          = (runOps (stepOp s o) t).rolePolicy := rfl
        _ = (stepOp s o).rolePolicy := ih (stepOp s o)
        _ = s.rolePolicy := hstep

/-! ## Chat page model (frontend/src/pages/Chat.jsx, services/apiService.js) -/

/-- A result row as the frontend receives it: a JavaScript object, i.e. an
ordered association list from column name to (stringified) value. -/
def Row := List (String × String)
  deriving DecidableEq

/-- JavaScript `String.prototype.trim()`: strip whitespace from both ends
of the string. -/
def jsTrim (s : String) : String :=
  ⟨((s.data.dropWhile Char.isWhitespace).reverse.dropWhile Char.isWhitespace).reverse⟩

/-- JavaScript `a || b` on a possibly-absent string: an absent or empty
string is falsy and falls through to the default. -/
def jsStrOr (a : Option String) (b : String) : String :=
  match a with
  | some s => if s = "" then b else s
  | none => b

/-- The JSON body of a backend query response as consumed by Chat.jsx
(`reply`, `response`, `sql`, `results`, `explanation`); the `columns` field
is modelled from the spec (§4.6 says the adapter output carries the
ordered column list) so that its fate downstream can be stated. -/
structure BackendResponse where
  reply : Option String
  response : Option String
  sql : Option String
  results : Option (List Row)
  explanation : Option String
  columns : Option (List String)
  deriving DecidableEq

/-- A chat message as built in Chat.jsx (timestamps are not modelled). -/
structure ChatMessage where
  role : String
  content : String
  sql : Option String := none
  results : Option (List Row) := none
  explanation : Option String := none
  mtype : Option String := none
  deriving DecidableEq

/-- SQL mode or CSV mode of the chat input (Chat.jsx `queryType`). -/
inductive QueryType where
  | sql
  | csv
  deriving DecidableEq

/-- The assistant message Chat.jsx builds from a successful backend
response: content is `response.reply || response.response || "No response
received"`; sql, results and explanation are carried over; the columns
field of the response is not retained. -/
def assistantMessageOfResponse (resp : BackendResponse) (qt : QueryType) : ChatMessage :=
  { role := "assistant"
    content := jsStrOr resp.reply (jsStrOr resp.response "No response received")
    sql := resp.sql
    results := resp.results
    explanation := resp.explanation
    mtype := some (if qt = .csv then "csv_query" else "sql_query") }

/-- The assistant message Chat.jsx builds in its catch block, embedding the
thrown error message verbatim. -/
def errorMessageOf (e : String) : ChatMessage :=
  { role := "assistant"
    content := "Sorry, I encountered an error: " ++ e ++
      ". Please make sure your backend is running and try again." }

/-- The chat state touched by `handleSend`: the message list, the input
field and the loading flag. -/
structure ChatState where
  messages : List ChatMessage
  input : String
  loading : Bool
  deriving DecidableEq

/-- A network request issued to the backend through ApiService. -/
inductive ApiRequest where
  | queryDatabase (q : String)
  | queryCSV (q : String)
  deriving DecidableEq

/-- `handleSend` from Chat.jsx lines 161-240, as a function from the chat
state to the new state plus the list of backend requests issued.  The
network outcome of the (single, at most) request is an explicit oracle
argument `net`.  Guards in source order: empty-after-trim input or an
in-flight request returns unchanged; a missing user alerts and navigates
without touching the chat state; CSV mode without uploaded files throws
before any request is issued; otherwise exactly one request is issued and
either the response message or the catch-block error message is appended,
with loading reset in the `finally` block. -/
def handleSend (s : ChatState) (user : Option UserData) (qt : QueryType)
    (hasUploadedFiles : Bool) (net : Except String BackendResponse) :
    ChatState × List ApiRequest :=
  if jsTrim s.input = "" ∨ s.loading = true then (s, [])
  else
    match user with
    | none => (s, [])
    | some _ =>
      let userMessage : ChatMessage := { role := "user", content := jsTrim s.input }
      let s1 : ChatState :=
        { messages := s.messages ++ [userMessage], input := "", loading := true }
      match qt, hasUploadedFiles with
      | .csv, false =>
          ({ s1 with
              messages := s1.messages ++
                [errorMessageOf "Please upload CSV files first before querying them."]
              loading := false }, [])
      | _, _ =>
          let req : ApiRequest :=
            match qt with
            | .sql => .queryDatabase (jsTrim s.input)
            | .csv => .queryCSV (jsTrim s.input)
          match net with
          | .ok resp =>
              ({ s1 with
                  messages := s1.messages ++ [assistantMessageOfResponse resp qt]
                  loading := false }, [req])
          | .error e =>
              ({ s1 with
                  messages := s1.messages ++ [errorMessageOf e]
                  loading := false }, [req])

/-- The HTTP response seen by `ApiService.queryDatabase`: the `ok` flag and
the parsed JSON body (its `error` field on failure, its payload on
success). -/
structure HttpResp where
  ok : Bool
  errorField : Option String
  payload : BackendResponse

/-- `ApiService.queryDatabase` response handling (apiService.js lines
16-34): a non-ok response throws `errorData.error || "Query failed"`,
passing the engine's message through; an ok response is returned as-is. -/
def queryDatabaseResult (r : HttpResp) : Except String BackendResponse :=
  if r.ok = true then .ok r.payload
  else .error (jsStrOr r.errorField "Query failed")

/-! ## Result rendering model (Chat.jsx `MessageBubble.renderResults`) -/

/-- The expandable table of a rendered result block: column headers taken
from `Object.keys(results[0] || {})`, the first 50 rows, and whether the
truncation notice is shown. -/
structure RenderedTable where
  headerKeys : List String
  rows : List Row
  notice : Bool
  deriving DecidableEq

/-- A rendered result block: the always-visible row-count label plus the
table, present only while `showResults` is toggled on. -/
structure RenderedBlock where
  rowCountLabel : Nat
  table : Option RenderedTable
  deriving DecidableEq

/-- `renderResults` from Chat.jsx lines 22-73: nothing is rendered when the
result list is absent or empty; otherwise the block shows the total row
count and, when expanded, a table whose headers are the keys of the first
row, whose body is the first 50 rows, and whose truncation notice appears
exactly when more than 50 rows exist. -/
def renderResults (results : Option (List Row)) (showResults : Bool) :
    Option RenderedBlock :=
  match results with
  | none => none
  | some l =>
    if l.length = 0 then none
    else
      some
        { rowCountLabel := l.length
          table :=
            if showResults = true then
              some
                { headerKeys := (l.headD []).map Prod.fst
                  rows := l.take 50
                  notice := decide (50 < l.length) }
            else none }

/-! ## Concrete sample values used by witnesses -/

/-- A concrete authenticated user. -/
def sampleUser : UserData :=
  { token := "tok", username := "viewer", role := "viewer", permissions := ["SELECT"] }

/-- A concrete backend payload. -/
def sampleResp : BackendResponse :=
  { reply := some "ok", response := none, sql := none, results := none
    explanation := none, columns := none }

/-- A backend response whose adapter-side column list is populated but
whose row list is empty. -/
def respEmptyRows : BackendResponse :=
  { reply := some "ok", response := none, sql := some "SELECT id, name FROM t"
    results := some [], explanation := none, columns := some ["id", "name"] }

/-- A backend response with one row whose key disagrees with the
adapter-side column list. -/
def respOneRow : BackendResponse :=
  { reply := some "ok", response := none, sql := none
    results := some [[("a", "1")]], explanation := none
    columns := some ["id", "name"] }

/-! ## Theorems for claims C6 - C10 -/

/-- Claim C9: for every userData value, login followed by logout leaves the
authenticated user equal to none and removes all four localStorage keys
`token`, `username`, `role`, `permissions`; and logout is idempotent: a
second call leaves the same cleared state. -/
theorem login_logout_clears (s : Client) (u : UserData) :
    (logout (login s u)).user = none ∧
      (logout (login s u)).store "token" = none ∧
      (logout (login s u)).store "username" = none ∧
      (logout (login s u)).store "role" = none ∧
      (logout (login s u)).store "permissions" = none ∧
      logout (logout (login s u)) = logout (login s u) := by
  have hidem : ∀ t : Client, logout (logout t) = logout t := by
    intro t
    unfold logout
    congr 1
    funext k
    simp only [removeKey]
    split_ifs <;> rfl
  refine ⟨rfl, ?_, ?_, ?_, ?_, hidem _⟩ <;> simp [logout, removeKey]

/-- Claim C10: when the chat input is empty after trimming, or a request is
already in flight, `handleSend` issues no network request and leaves the
entire chat state (messages, input, loading) unchanged. -/
theorem handleSend_noop_when_blocked (s : ChatState) (user : Option UserData)
    (qt : QueryType) (huf : Bool) (net : Except String BackendResponse)
    (h : jsTrim s.input = "" ∨ s.loading = true) :
    handleSend s user qt huf net = (s, []) := by
  unfold handleSend
  rw [if_pos h]

/-- Witness for C10: a whitespace-only input with a pending response is a
no-op. -/
theorem handleSend_noop_when_blocked_witness :
    handleSend { messages := [], input := "   ", loading := false } (some sampleUser)
        .sql true (.ok sampleResp) =
      ({ messages := [], input := "   ", loading := false }, []) :=
  handleSend_noop_when_blocked _ _ _ _ _ (Or.inl (by decide))

/-- Claim C7: every send issues at most one backend request (no automatic
retry); when the request fails, the thrown error message is embedded
verbatim in the reported assistant message; and `ApiService.queryDatabase`
passes the engine's error message through unchanged on a non-ok
response. -/
theorem handleSend_single_request_and_verbatim_error (s : ChatState)
    (user : Option UserData) (qt : QueryType) (huf : Bool)
    (net : Except String BackendResponse) :
    (handleSend s user qt huf net).2.length ≤ 1 ∧
      (∀ e u, net = .error e → user = some u → jsTrim s.input ≠ "" →
        s.loading = false → (qt = .sql ∨ huf = true) →
        (handleSend s user qt huf net).1.messages =
          s.messages ++
            [{ role := "user", content := jsTrim s.input },
             { role := "assistant",
               content := "Sorry, I encountered an error: " ++ e ++
                 ". Please make sure your backend is running and try again." }]) ∧
      (∀ (r : HttpResp) (e : String), r.ok = false → r.errorField = some e →
        e ≠ "" → queryDatabaseResult r = .error e) := by
  refine ⟨?_, ?_, ?_⟩
  · by_cases hg : jsTrim s.input = "" ∨ s.loading = true
    · simp [handleSend, hg]
    · cases user with
      | none => simp [handleSend, hg]
      | some u => cases qt <;> cases huf <;> cases net <;> simp [handleSend, hg]
  · intro e u hnet huser htrim hload hqt
    have hg : ¬(jsTrim s.input = "" ∨ s.loading = true) := by
      rintro (h | h)
      · exact htrim h
      · rw [hload] at h
        cases h
    unfold handleSend
    rw [if_neg hg, huser, hnet]
    rcases hqt with hqt | hqt
    · subst hqt
      simp [errorMessageOf]
    · subst hqt
      cases qt <;> simp [errorMessageOf]
  · intro r e hok herr hne
    simp [queryDatabaseResult, hok, herr, jsStrOr, hne]

/-- Witness for C7: a concrete failing send appends the user message and
the verbatim engine error, and the service layer propagates the engine
message. -/
theorem handleSend_single_request_and_verbatim_error_witness :
    (handleSend { messages := [], input := "show orders", loading := false }
        (some sampleUser) .sql false (.error "Table t missing")).2.length ≤ 1 ∧
      (handleSend { messages := [], input := "show orders", loading := false }
          (some sampleUser) .sql false (.error "Table t missing")).1.messages =
        [] ++
          [{ role := "user", content := "show orders" },
           { role := "assistant",
             content := "Sorry, I encountered an error: " ++ "Table t missing" ++
               ". Please make sure your backend is running and try again." }] ∧
      queryDatabaseResult { ok := false, errorField := some "Table t missing", payload := sampleResp }
        = .error "Table t missing" := by
  obtain ⟨h1, h2, h3⟩ :=
    handleSend_single_request_and_verbatim_error
      { messages := [], input := "show orders", loading := false }
      (some sampleUser) .sql false (.error "Table t missing")
  refine ⟨h1, ?_, h3 _ _ rfl rfl (by decide)⟩
  have := h2 "Table t missing" sampleUser rfl rfl (by decide) rfl (Or.inl rfl)
  simpa using this

/-- Claim C8: `renderResults` renders nothing when the result list is
absent or empty; otherwise (in the expanded view) it renders exactly the
first min(length, 50) rows in order, with headers from the first row, and
shows the truncation notice exactly when the list has strictly more than
50 rows. -/
theorem renderResults_spec :
    (∀ sr, renderResults none sr = none) ∧
      (∀ sr, renderResults (some []) sr = none) ∧
      (∀ l : List Row, l ≠ [] →
        renderResults (some l) true =
            some
              { rowCountLabel := l.length
                table :=
                  some
                    { headerKeys := (l.headD []).map Prod.fst
                      rows := l.take 50
                      notice := decide (50 < l.length) } } ∧
          (l.take 50).length = min l.length 50 ∧
          (decide (50 < l.length) = true ↔ 50 < l.length)) := by
  refine ⟨fun sr => rfl, fun sr => rfl, ?_⟩
  intro l hl
  have hlen : l.length ≠ 0 := by
    simpa [List.length_eq_zero] using hl
  refine ⟨?_, ?_, by simp⟩
  · simp [renderResults, hlen]
  · rw [List.length_take, Nat.min_comm]

/-- Witness for C8: a one-row result list renders a one-row table with no
truncation notice. -/
theorem renderResults_spec_witness :
    renderResults (some [[("a", "1")]]) true =
        some
          { rowCountLabel := 1
            table :=
              some
                { headerKeys := ["a"], rows := [[("a", "1")]], notice := false } } ∧
      ([[("a", "1")]] : List Row).length = 1 := by
  obtain ⟨-, -, h⟩ := renderResults_spec
  obtain ⟨h1, -, -⟩ := h [[("a", "1")]] (by decide)
  exact ⟨by simpa using h1, rfl⟩

/-- Counterexample to claim C6 at explicit inputs: the adapter-side column
list is populated, yet with an empty row list nothing (in particular no
column list) is rendered, and with a non-empty row list the rendered
headers are the keys of the first row, not the carried column list. -/
theorem columns_dropped_counterexample :
    respEmptyRows.columns = some ["id", "name"] ∧
      renderResults (assistantMessageOfResponse respEmptyRows .sql).results true = none ∧
      respOneRow.columns = some ["id", "name"] ∧
      (renderResults (assistantMessageOfResponse respOneRow .sql).results true).map
          (fun b => b.table.map (fun t => t.headerKeys)) =
        some (some ["a"]) := by
  decide

/-- Claim C6 as amended: the chat view does not consume any separate
column list — the assistant message retains only the row list from the
backend response, the rendered headers are derived from the keys of the
first row, and nothing is rendered when the row list is empty or absent,
so no column order is available with empty rows. -/
theorem headers_derived_from_first_row (resp : BackendResponse) (qt : QueryType) :
    (assistantMessageOfResponse resp qt).results = resp.results ∧
      (resp.results = some [] →
        ∀ sr, renderResults (assistantMessageOfResponse resp qt).results sr = none) ∧
      (∀ l, resp.results = some l → l ≠ [] →
        renderResults (assistantMessageOfResponse resp qt).results true =
          some
            { rowCountLabel := l.length
              table :=
                some
                  { headerKeys := (l.headD []).map Prod.fst
                    rows := l.take 50
                    notice := decide (50 < l.length) } }) := by
  refine ⟨rfl, ?_, ?_⟩
  · intro hres sr
    simp [assistantMessageOfResponse, hres, renderResults]
  · intro l hres hl
    have hlen : l.length ≠ 0 := by
      simpa [List.length_eq_zero] using hl
    simp [assistantMessageOfResponse, hres, renderResults, hlen]

/-- Witness for the amended C6 at a concrete one-row response. -/
theorem headers_derived_from_first_row_witness :
    (assistantMessageOfResponse respOneRow .sql).results = respOneRow.results ∧
      renderResults (assistantMessageOfResponse respOneRow .sql).results true =
        some
          { rowCountLabel := 1
            table :=
              some { headerKeys := ["a"], rows := [[("a", "1")]], notice := false } } := by
  obtain ⟨h1, -, h3⟩ := headers_derived_from_first_row respOneRow .sql
  refine ⟨h1, ?_⟩
  have := h3 [[("a", "1")]] rfl (by decide)
  simpa using this

/-! ## Statistical Profiling Engine (spec §4.2) -/

/-- Modelled from the spec: sorted-list element access used by the quartile
computation; the index is clamped to the last element (only ranks up to
length - 1 arise), and the empty list yields 0. -/
def nthSorted (xs : List ℚ) (i : ℕ) : ℚ :=
  xs.getD (min i (xs.length - 1)) 0

/-- Modelled from the spec: linear interpolation between ranks.  At rank
`r`, take the value at position ⌊r⌋ plus the fractional part times the gap
to the next position. -/
def interp (xs : List ℚ) (r : ℚ) : ℚ :=
  nthSorted xs (⌊r⌋).toNat +
    (r - ((⌊r⌋).toNat : ℚ)) *
      (nthSorted xs ((⌊r⌋).toNat + 1) - nthSorted xs (⌊r⌋).toNat)

/-- Modelled from the spec: the p-th quantile of a sorted list, linearly
interpolated at rank p·(n−1). -/
def quantile (xs : List ℚ) (p : ℚ) : ℚ :=
  interp xs (p * ((xs.length : ℚ) - 1))

/-- The StatisticalProfile of a numeric column (spec §3, §4.2): five-number
summary, IQR, outlier fences, outlier count, null and unique counts. -/
structure NumericProfile where
  min : ℚ
  q1 : ℚ
  median : ℚ
  q3 : ℚ
  max : ℚ
  iqr : ℚ
  lowerFence : ℚ
  upperFence : ℚ
  outlierCount : ℕ
  nullCount : ℕ
  uniqueCount : ℕ
  deriving DecidableEq, Repr

/-- Modelled from the spec: the Statistical Profiling Engine (§4.2) is
backend code absent from the source tree.  Sort the non-null values;
compute min, Q1, median, Q3, max with linear interpolation between ranks;
IQR = Q3 − Q1; an outlier is any value below Q1 − 1.5·IQR or above
Q3 + 1.5·IQR; report the outlier count plus null and unique counts.  A
column with no non-null value yields no numeric profile. -/
def profileRecord (values : List ℚ) (nullCount : ℕ) : NumericProfile :=
  let sorted := values.insertionSort (· ≤ ·)
  let q1 := quantile sorted (1 / 4)
  let med := quantile sorted (1 / 2)
  let q3 := quantile sorted (3 / 4)
  let iqr := q3 - q1
  let lo := q1 - 3 / 2 * iqr
  let hi := q3 + 3 / 2 * iqr
  { min := nthSorted sorted 0
    q1 := q1
    median := med
    q3 := q3
    max := nthSorted sorted (sorted.length - 1)
    iqr := iqr
    lowerFence := lo
    upperFence := hi
    outlierCount := values.countP (fun v => decide (v < lo) || decide (hi < v))
    nullCount := nullCount
    uniqueCount := values.dedup.length }

/-- Modelled from the spec: profiling a raw column extracts the non-null
values; a column with no non-null value yields no numeric profile. -/
def profile (input : List (Option ℚ)) : Option NumericProfile :=
  let values := input.filterMap id
  if values = [] then none
  else some (profileRecord values (input.countP (fun o => o.isNone)))

/-- Clamped access is monotone on a sorted list, measured on the clamped
indices. -/
theorem nthSorted_get_le (xs : List ℚ) (hs : xs.Sorted (· ≤ ·)) {i j : ℕ}
    (h : min i (xs.length - 1) ≤ min j (xs.length - 1)) :
    nthSorted xs i ≤ nthSorted xs j := by
  cases xs with
  | nil => simp [nthSorted]
  | cons a t =>
      set l := a :: t with hl
      have hlen : 0 < l.length := by simp [hl]
      have hi : min i (l.length - 1) < l.length :=
        lt_of_le_of_lt (min_le_right _ _) (Nat.sub_lt hlen Nat.one_pos)
      have hj : min j (l.length - 1) < l.length :=
        lt_of_le_of_lt (min_le_right _ _) (Nat.sub_lt hlen Nat.one_pos)
      unfold nthSorted
      rw [List.getD_eq_getElem _ _ hi, List.getD_eq_getElem _ _ hj]
      exact hs.rel_get_of_le (a := ⟨_, hi⟩) (b := ⟨_, hj⟩) h

/-- Clamped access is monotone in the requested index. -/
theorem nthSorted_mono (xs : List ℚ) (hs : xs.Sorted (· ≤ ·)) {i j : ℕ}
    (h : i ≤ j) : nthSorted xs i ≤ nthSorted xs j :=
  nthSorted_get_le xs hs (min_le_min h le_rfl)

/-- Every clamped access is at most the last element. -/
theorem nthSorted_le_last (xs : List ℚ) (hs : xs.Sorted (· ≤ ·)) (i : ℕ) :
    nthSorted xs i ≤ nthSorted xs (xs.length - 1) :=
  nthSorted_get_le xs hs (by simp)

/-- The interpolated value at a nonnegative rank lies between the two
neighbouring sorted values. -/
theorem interp_bounds (xs : List ℚ) (hs : xs.Sorted (· ≤ ·)) {r : ℚ}
    (hr : 0 ≤ r) :
    nthSorted xs (⌊r⌋).toNat ≤ interp xs r ∧
      interp xs r ≤ nthSorted xs ((⌊r⌋).toNat + 1) := by
  have hfl0 : (0 : ℤ) ≤ ⌊r⌋ := Int.floor_nonneg.2 hr
  have hcast : (((⌊r⌋).toNat : ℤ) : ℚ) = ((⌊r⌋ : ℤ) : ℚ) := by
    rw [Int.toNat_of_nonneg hfl0]
  have hfl : ((⌊r⌋).toNat : ℚ) ≤ r := by
    push_cast at hcast
    rw [hcast]
    exact Int.floor_le r
  have hfu : r - ((⌊r⌋).toNat : ℚ) ≤ 1 := by
    have h1 : r < (⌊r⌋ : ℚ) + 1 := Int.lt_floor_add_one r
    push_cast at hcast
    rw [hcast]
    linarith
  have hab : nthSorted xs (⌊r⌋).toNat ≤ nthSorted xs ((⌊r⌋).toNat + 1) :=
    nthSorted_mono xs hs (Nat.le_succ _)
  constructor
  · unfold interp
    nlinarith [hfl, hab]
  · unfold interp
    nlinarith [hfu, hab, mul_nonneg (by linarith : (0 : ℚ) ≤ 1 - (r - ((⌊r⌋).toNat : ℚ)))
      (by linarith : (0 : ℚ) ≤ nthSorted xs ((⌊r⌋).toNat + 1) - nthSorted xs (⌊r⌋).toNat)]

/-- Linear interpolation at increasing nonnegative ranks is monotone on a
sorted list. -/
theorem interp_mono (xs : List ℚ) (hs : xs.Sorted (· ≤ ·)) {r r' : ℚ}
    (hr : 0 ≤ r) (hrr : r ≤ r') : interp xs r ≤ interp xs r' := by
  have hr' : 0 ≤ r' := le_trans hr hrr
  have hii : (⌊r⌋).toNat ≤ (⌊r'⌋).toNat := Int.toNat_le_toNat (Int.floor_mono hrr)
  rcases Nat.lt_or_ge (⌊r⌋).toNat (⌊r'⌋).toNat with hlt | hge
  · have h1 : interp xs r ≤ nthSorted xs ((⌊r⌋).toNat + 1) := (interp_bounds xs hs hr).2
    have h2 : nthSorted xs ((⌊r⌋).toNat + 1) ≤ nthSorted xs (⌊r'⌋).toNat :=
      nthSorted_mono xs hs hlt
    have h3 : nthSorted xs (⌊r'⌋).toNat ≤ interp xs r' := (interp_bounds xs hs hr').1
    linarith
  · have heq : (⌊r'⌋).toNat = (⌊r⌋).toNat := le_antisymm hge hii
    have hab : nthSorted xs (⌊r⌋).toNat ≤ nthSorted xs ((⌊r⌋).toNat + 1) :=
      nthSorted_mono xs hs (Nat.le_succ _)
    unfold interp
    rw [heq]
    nlinarith [hab, hrr]

/-- Evaluation rule for `interp` once the floor of the rank is known. -/
theorem interp_eval (xs : List ℚ) (r : ℚ) (n : ℕ) (hfl : ⌊r⌋ = (n : ℤ)) :
    interp xs r =
      nthSorted xs n + (r - (n : ℚ)) * (nthSorted xs (n + 1) - nthSorted xs n) := by
  unfold interp
  rw [hfl, Int.toNat_natCast]

/-- Claim C4: for every numeric column with at least one non-null value,
the profile exists and its five-number summary is ordered:
min ≤ Q1 ≤ median ≤ Q3 ≤ max, with the quartiles computed on the sorted
non-null values by linear interpolation between ranks. -/
theorem profile_five_number_ordered (input : List (Option ℚ))
    (h : input.filterMap id ≠ []) :
    ∃ p, profile input = some p ∧
      p.min ≤ p.q1 ∧ p.q1 ≤ p.median ∧ p.median ≤ p.q3 ∧ p.q3 ≤ p.max := by
  refine ⟨profileRecord (input.filterMap id) (input.countP (fun o => o.isNone)), ?_, ?_⟩
  · simp only [profile]
    rw [if_neg h]
  · set values := input.filterMap id with hv
    set sorted := values.insertionSort (· ≤ ·) with hsd
    have hs : sorted.Sorted (· ≤ ·) := List.sorted_insertionSort _ _
    have hlen : 1 ≤ sorted.length := by
      rw [hsd, List.length_insertionSort]
      exact List.length_pos.2 h
    have hn0 : (0 : ℚ) ≤ (sorted.length : ℚ) - 1 := by
      have h1 : (1 : ℚ) ≤ (sorted.length : ℚ) := by exact_mod_cast hlen
      linarith
    have r14 : (0 : ℚ) ≤ 1 / 4 * ((sorted.length : ℚ) - 1) :=
      mul_nonneg (by norm_num) hn0
    have r12 : (0 : ℚ) ≤ 1 / 2 * ((sorted.length : ℚ) - 1) :=
      mul_nonneg (by norm_num) hn0
    have r34 : (0 : ℚ) ≤ 3 / 4 * ((sorted.length : ℚ) - 1) :=
      mul_nonneg (by norm_num) hn0
    refine ⟨?_, ?_, ?_, ?_⟩
    · show nthSorted sorted 0 ≤ quantile sorted (1 / 4)
      calc nthSorted sorted 0
          ≤ nthSorted sorted (⌊1 / 4 * ((sorted.length : ℚ) - 1)⌋).toNat :=
            nthSorted_mono sorted hs (Nat.zero_le _)
        _ ≤ interp sorted (1 / 4 * ((sorted.length : ℚ) - 1)) :=
            (interp_bounds sorted hs r14).1
    · show quantile sorted (1 / 4) ≤ quantile sorted (1 / 2)
      exact interp_mono sorted hs r14
        (mul_le_mul_of_nonneg_right (by norm_num) hn0)
    · show quantile sorted (1 / 2) ≤ quantile sorted (3 / 4)
      exact interp_mono sorted hs r12
        (mul_le_mul_of_nonneg_right (by norm_num) hn0)
    · show quantile sorted (3 / 4) ≤ nthSorted sorted (sorted.length - 1)
      calc interp sorted (3 / 4 * ((sorted.length : ℚ) - 1))
          ≤ nthSorted sorted ((⌊3 / 4 * ((sorted.length : ℚ) - 1)⌋).toNat + 1) :=
            (interp_bounds sorted hs r34).2
        _ ≤ nthSorted sorted (sorted.length - 1) := nthSorted_le_last sorted hs _

/-- Witness for C4 at the concrete column [10, null, 7]. -/
theorem profile_five_number_ordered_witness :
    ([some (10 : ℚ), none, some 7].filterMap id ≠ []) ∧
      ∃ p, profile [some (10 : ℚ), none, some 7] = some p ∧
        p.min ≤ p.q1 ∧ p.q1 ≤ p.median ∧ p.median ≤ p.q3 ∧ p.q3 ≤ p.max :=
  ⟨by simp, profile_five_number_ordered _ (by simp)⟩

/-- Claim C5: profiling the numeric column [1,2,3,4,5,100] yields exactly
Q1 = 2.25, median = 3.5, Q3 = 4.75, IQR = 2.5, upper fence 8.5, and an
outlier count of exactly 1 (only 100 lies outside the fences). -/
theorem spec_example_profile :
    profile [some 1, some 2, some 3, some 4, some 5, some 100] =
      some
        { min := 1, q1 := 9 / 4, median := 7 / 2, q3 := 19 / 4, max := 100
          iqr := 5 / 2, lowerFence := -3 / 2, upperFence := 17 / 2
          outlierCount := 1, nullCount := 0, uniqueCount := 6 } := by
  have hvals : ([some (1 : ℚ), some 2, some 3, some 4, some 5, some 100].filterMap id)
      = [1, 2, 3, 4, 5, 100] := rfl
  have hnull : ([some (1 : ℚ), some 2, some 3, some 4, some 5, some 100].countP
      (fun o => o.isNone)) = 0 := rfl
  have hsorted : ([(1 : ℚ), 2, 3, 4, 5, 100]).Sorted (· ≤ ·) := by
    norm_num [List.sorted_cons]
  have hsort : List.insertionSort (· ≤ ·) [(1 : ℚ), 2, 3, 4, 5, 100]
      = [1, 2, 3, 4, 5, 100] := hsorted.insertionSort_eq
  have hlen : ([(1 : ℚ), 2, 3, 4, 5, 100]).length = 6 := rfl
  have hq1 : quantile [(1 : ℚ), 2, 3, 4, 5, 100] (1 / 4) = 9 / 4 := by
    unfold quantile
    rw [hlen]
    have hrank : (1 / 4 : ℚ) * (((6 : ℕ) : ℚ) - 1) = 5 / 4 := by push_cast; norm_num
    rw [hrank, interp_eval _ _ 1 (by rw [Int.floor_eq_iff]; constructor <;> norm_num)]
    norm_num [nthSorted, List.getD_cons_zero, List.getD_cons_succ]
  have hq2 : quantile [(1 : ℚ), 2, 3, 4, 5, 100] (1 / 2) = 7 / 2 := by
    unfold quantile
    rw [hlen]
    have hrank : (1 / 2 : ℚ) * (((6 : ℕ) : ℚ) - 1) = 5 / 2 := by push_cast; norm_num
    rw [hrank, interp_eval _ _ 2 (by rw [Int.floor_eq_iff]; constructor <;> norm_num)]
    norm_num [nthSorted, List.getD_cons_zero, List.getD_cons_succ]
  have hq3 : quantile [(1 : ℚ), 2, 3, 4, 5, 100] (3 / 4) = 19 / 4 := by
    unfold quantile
    rw [hlen]
    have hrank : (3 / 4 : ℚ) * (((6 : ℕ) : ℚ) - 1) = 15 / 4 := by push_cast; norm_num
    rw [hrank, interp_eval _ _ 3 (by rw [Int.floor_eq_iff]; constructor <;> norm_num)]
    norm_num [nthSorted, List.getD_cons_zero, List.getD_cons_succ]
  have hnodup : ([(1 : ℚ), 2, 3, 4, 5, 100]).Nodup := by
    norm_num [List.nodup_cons]
  simp only [profile, hvals, hnull]
  rw [if_neg (List.cons_ne_nil _ _)]
  congr 1
  simp only [profileRecord, hsort]
  simp only [NumericProfile.mk.injEq]
  refine ⟨?_, hq1, hq2, hq3, ?_, ?_, ?_, ?_, ?_, trivial, ?_⟩
  · norm_num [nthSorted, List.getD_cons_zero, List.getD_cons_succ]
  · norm_num [nthSorted, List.getD_cons_zero, List.getD_cons_succ]
  · rw [hq3, hq1]
    norm_num
  · rw [hq1, hq3]
    norm_num
  · rw [hq3, hq1]
    norm_num
  · simp only [hq1, hq3]
    norm_num [List.countP_cons, List.countP_nil, decide_eq_true_eq]
  · rw [List.dedup_eq_self.2 hnodup]
    rfl

end Talk2DB
